import Mathlib

set_option maxHeartbeats 1000000

/-! Verification development for the vikebot Go client (game.go, packet.go,
player.go).  The session state, the AES-GCM/base64 framing layer, the
handshake verification step and the packet-counter guard are shallowly
embedded below; transport and RNG effects are made explicit parameters.
Bytes are modelled as `Nat` (meaningful values are `< 256`), Go's `uint32`
counter arithmetic is `% U32`, and a Go computation yields a `GoResult`:
a value, an error return, or a runtime fault (panic). -/

/-- Modulus of Go's `uint32` type, used for the packet-counter arithmetic. -/
def U32 : Nat := 4294967296

/-- Outcome of a Go computation: a returned value, a non-nil `error`, or a
runtime fault (nil-pointer dereference or out-of-range slice index, which
in Go is a panic rather than an error return). -/
inductive GoResult (α : Type) where
  | ok : α → GoResult α
  | err : String → GoResult α
  | fault : GoResult α

/-- Abstract model of Go's `cipher.AEAD` as produced by
`cipher.NewGCM(aes.NewCipher(key))` in `Join`: a fixed nonce size, `Seal`
and `Open`, together with the standard-library contract that `Open`
inverts `Seal` under the same nonce and that `Seal` emits bytes. -/
structure AEAD where
  nonceSize : Nat
  enc : List Nat → List Nat → List Nat
  dec : List Nat → List Nat → Option (List Nat)
  dec_enc : ∀ nonce plain, nonce.length = nonceSize →
    dec nonce (enc nonce plain) = some plain
  enc_lt : ∀ nonce plain, (∀ b ∈ plain, b < 256) →
    ∀ b ∈ enc nonce plain, b < 256

/-- The `Game` struct of game.go: connection handle, buffered reader
(modelled as the remaining input byte stream), AEAD instance, packet
counter, encryption flag and player handle.  `Option.none` models a nil
Go pointer/interface. -/
structure Game where
  conn : Option Unit
  buf : Option (List Nat)
  gcm : Option AEAD
  pc : Nat
  Encrypted : Bool
  player : Bool

/-- `Game.Close`: clears `buf`, `gcm`, `Encrypted` and `Player`, saves and
nils `conn`, then calls `Close` on the saved pointer.  When `conn` was
already nil (a second `Close`), dereferencing it faults. -/
def Game.close (g : Game) : Game × GoResult Unit :=
  let g2 : Game :=
    { g with buf := none, gcm := none, Encrypted := false, player := false, conn := none }
  match g.conn with
  | none => (g2, GoResult.fault)
  | some _ => (g2, GoResult.ok ())

/-- The base64 standard alphabet of `base64.RawStdEncoding`, as a map from
a six-bit group to its ASCII code. -/
def b64Alpha (i : Nat) : Nat :=
  if i < 26 then 65 + i
  else if i < 52 then 97 + (i - 26)
  else if i < 62 then 48 + (i - 52)
  else if i = 62 then 43
  else 47

/-- Inverse lookup of the standard base64 alphabet: ASCII code back to the
six-bit group, `none` for a character outside the alphabet. -/
def b64Index (c : Nat) : Option Nat :=
  if 65 ≤ c ∧ c ≤ 90 then some (c - 65)
  else if 97 ≤ c ∧ c ≤ 122 then some (c - 97 + 26)
  else if 48 ≤ c ∧ c ≤ 57 then some (c - 48 + 52)
  else if c = 43 then some 62
  else if c = 47 then some 63
  else none

/-- Byte triples to six-bit groups (the bit-regrouping step of base64
encoding, unpadded as in `RawStdEncoding`). -/
def encode3 : List Nat → List Nat
  | a :: b :: c :: rest =>
      a / 4 :: (a % 4 * 16 + b / 16) :: (b % 16 * 4 + c / 64) :: c % 64 :: encode3 rest
  | [a, b] => [a / 4, a % 4 * 16 + b / 16]  ++ [b % 16 * 4]
  | [a] => [a / 4, a % 4 * 16]
  | [] => []

/-- Six-bit groups back to bytes; `none` when the group count is ≡ 1
(mod 4), which `RawStdEncoding` rejects as corrupt input. -/
def decode4 : List Nat → Option (List Nat)
  | w :: x :: y :: z :: rest =>
      match decode4 rest with
      | some tail => some ((w * 4 + x / 16) :: (x % 16 * 16 + y / 4) :: (y % 4 * 64 + z) :: tail)
      | none => none
  | [w, x, y] => some [w * 4 + x / 16, x % 16 * 16 + y / 4]
  | [w, x] => some [w * 4 + x / 16]
  | [_] => none
  | [] => some []

/-- Character-by-character alphabet lookup used by decoding; fails on the
first character outside the alphabet, like Go's `CorruptInputError`. -/
def mapIdx : List Nat → Option (List Nat)
  | [] => some []
  | c :: cs =>
      match b64Index c, mapIdx cs with
      | some i, some is => some (i :: is)
      | _, _ => none

/-- `base64.RawStdEncoding` encoding of a byte sequence. -/
def encode64 (bs : List Nat) : List Nat :=
  (encode3 bs).map b64Alpha

/-- `base64.RawStdEncoding` decoding: newline characters are skipped (as
Go's decoder does), every other character must be in the alphabet, and the
group count must not be ≡ 1 (mod 4). -/
def decode64 (cs : List Nat) : Option (List Nat) :=
  match mapIdx (cs.filter fun c => !(c == 10) && !(c == 13)) with
  | some sextets => decode4 sextets
  | none => none

/-- `Game.encrypt`: draws a fresh nonce (made an explicit argument here),
seals the plaintext and prepends the nonce.  Calling `NonceSize` on a nil
AEAD interface faults. -/
def Game.encrypt (g : Game) (nonce plain : List Nat) : GoResult (List Nat) :=
  match g.gcm with
  | none => GoResult.fault
  | some a => GoResult.ok (nonce ++ a.enc nonce plain)

/-- `Game.encrypt64`: encrypt, then base64-encode the nonce‖ciphertext
buffer. -/
def Game.encrypt64 (g : Game) (nonce plain : List Nat) : GoResult (List Nat) :=
  match g.encrypt nonce plain with
  | GoResult.ok c => GoResult.ok (encode64 c)
  | GoResult.err e => GoResult.err e
  | GoResult.fault => GoResult.fault

/-- `Game.decrypt`: splits `cipher[0:NonceSize]` from `cipher[NonceSize:]`
and opens.  The source performs the slice without a length check, so a
buffer shorter than the nonce size faults (slice bounds out of range)
instead of returning an error. -/
def Game.decrypt (g : Game) (cipher : List Nat) : GoResult (List Nat) :=
  match g.gcm with
  | none => GoResult.fault
  | some a =>
      if cipher.length < a.nonceSize then GoResult.fault
      else
        match a.dec (cipher.take a.nonceSize) (cipher.drop a.nonceSize) with
        | some plain => GoResult.ok plain
        | none => GoResult.err "cipher: message authentication failed"

/-- `Game.decrypt64`: base64-decode, then decrypt.  This also models
`decryptStr`, whose byte-level behaviour is identical. -/
def Game.decrypt64 (g : Game) (cipher64 : List Nat) : GoResult (List Nat) :=
  match decode64 cipher64 with
  | none => GoResult.err "illegal base64 data"
  | some cipher => g.decrypt cipher

/-- `Game.write`: when `Encrypted`, seal and base64 the payload (wrapping
an encryption error); append the newline delimiter; write to the
connection.  Writing through a nil connection pointer faults. -/
def Game.write (g : Game) (nonce buf : List Nat) : GoResult Unit :=
  let staged : GoResult (List Nat) :=
    if g.Encrypted then
      match g.encrypt64 nonce buf with
      | GoResult.ok c => GoResult.ok c
      | GoResult.err e => GoResult.err ("vikebot: encryption failed - " ++ e)
      | GoResult.fault => GoResult.fault
    else GoResult.ok buf
  match staged with
  | GoResult.ok _ =>
      match g.conn with
      | none => GoResult.fault
      | some _ => GoResult.ok ()
  | GoResult.err e => GoResult.err e
  | GoResult.fault => GoResult.fault

/-- `bufio.Reader.ReadBytes('\n')`: the delimited line including the
newline, plus the remaining stream; `none` when the stream ends without a
delimiter (the EOF error path). -/
def readLine : List Nat → Option (List Nat × List Nat)
  | [] => none
  | b :: rest =>
      if b = 10 then some ([10], rest)
      else
        match readLine rest with
        | none => none
        | some (line, r) => some (b :: line, r)

/-- `Game.read` with `extractPt = false` (the byte-level frame read):
reads one line; when `Encrypted`, strips the trailing newline and
base64+AEAD-decodes (wrapping a decode failure), otherwise returns the
line as read — the source strips the delimiter only in the encrypted
branch.  Reading through a nil buffered reader faults. -/
def Game.readRaw (g : Game) : GoResult (List Nat) × Game :=
  match g.buf with
  | none => (GoResult.fault, g)
  | some stream =>
      match readLine stream with
      | none => (GoResult.err "vikebot: EOF", { g with buf := some [] })
      | some (line, rest) =>
          let g2 := { g with buf := some rest }
          if g.Encrypted then
            match g.decrypt64 line.dropLast with
            | GoResult.ok plain => (GoResult.ok plain, g2)
            | GoResult.err e => (GoResult.err ("vikebot: unsecure connection - " ++ e), g2)
            | GoResult.fault => (GoResult.fault, g2)
          else (GoResult.ok line, g2)

/-- ASCII codes of a Lean string, for the handshake plaintext comparisons. -/
def strBytes (s : String) : List Nat := s.toList.map Char.toNat

example : decode64 (encode64 [0, 1, 77, 255]) = some [0, 1, 77, 255] := by decide
example : decode64 (encode64 [10, 200]) = some [10, 200] := by decide
example : decode64 [65] = none := by decide
example : readLine [120, 10, 7] = some ([120, 10], [7]) := by decide

/-- The serverhello envelope as seen by `Join` after JSON decoding: the
`type` field, the optional `error` field, and the optional `obj.cipher`
field (base64 text, modelled as its bytes). -/
structure ShMsg where
  type : String
  error : Option String
  objCipher : Option (List Nat)

/-- The serverhello verification segment of `Join` (game.go lines
300-330): if the packet type is not "serverhello", the source only
returns when the envelope carries an `error` field — otherwise control
falls through; then `obj.cipher` is required, AEAD-opened, compared
against `"serverhello:<challenge>"`, and only on success is `Encrypted`
set to true. -/
def serverhelloCheck (g : Game) (msg : ShMsg) (challengeStr : String) : GoResult Game :=
  match if msg.type ≠ "serverhello" then msg.error else none with
  | some e => GoResult.err ("vikebot: " ++ e)
  | none =>
      match msg.objCipher with
      | none => GoResult.err "vikebot: invalid server response serverhello.Obj.Cipher == nil"
      | some c64 =>
          match g.decrypt64 c64 with
          | GoResult.fault => GoResult.fault
          | GoResult.err e => GoResult.err e
          | GoResult.ok plain =>
              if plain ≠ strBytes ("serverhello:" ++ challengeStr) then
                GoResult.err ("vikebot: invalid plain text - expecting serverhello:" ++ challengeStr)
              else GoResult.ok { g with Encrypted := true }

/-- A response envelope after JSON decoding, as the `response` struct of
packet.go plus the command-specific `obj` projections the player.go
wrappers re-decode from the same buffer (`none` models an absent field). -/
structure Envelope where
  type : String
  pc : Option Nat
  error : Option String
  objValue : Option Int := none
  objHealth : Option Int := none
  objCounter : Option Int := none
  objMatrix : Option (List (List Int)) := none

/-- What reading and JSON-decoding one response produced: a read error, a
malformed-JSON error, or a decoded envelope.  This is the oracle input
standing for the server's behaviour on one round-trip. -/
inductive ReadOutcome where
  | failure : String → ReadOutcome
  | badJson : ReadOutcome
  | msg : Envelope → ReadOutcome

/-- `Game.trivialActionResp` (game.go lines 177-214): write the packet,
read and decode the response, reject a type mismatch (surfacing the
server's `error` only for "unknown"/"forbidden" types), and when
`Encrypted` increment the local counter and require the response `pc` to
equal it.  The write outcome and the read outcome are explicit oracle
arguments. -/
def Game.trivialActionResp (g : Game) (pt : String) (wr : GoResult Unit)
    (rd : ReadOutcome) : GoResult Envelope × Game :=
  match wr with
  | GoResult.err e => (GoResult.err e, g)
  | GoResult.fault => (GoResult.fault, g)
  | GoResult.ok _ =>
      match rd with
      | ReadOutcome.failure e => (GoResult.err e, g)
      | ReadOutcome.badJson => (GoResult.err "vikebot: invalid character in response", g)
      | ReadOutcome.msg resp =>
          if resp.type ≠ pt then
            match resp.error with
            | some e =>
                if resp.type = "unknown" ∨ resp.type = "forbidden" then
                  (GoResult.err ("vikebot: " ++ e), g)
                else (GoResult.err "vikebot: invalid server response. unexpected packet", g)
            | none => (GoResult.err "vikebot: invalid server response. unexpected packet", g)
          else
            if g.Encrypted then
              let g2 := { g with pc := (g.pc + 1) % U32 }
              match resp.pc with
              | none => (GoResult.err "vikebot: invalid server response. missing pc", g2)
              | some p =>
                  if p ≠ g2.pc then
                    (GoResult.err "vikebot: invalid server response. pc mismatch", g2)
                  else (GoResult.ok resp, g2)
            else (GoResult.ok resp, g)

/-- `Player.Rotate` (player.go lines 36-56): increment the counter, run
the round-trip, wrap a failure, then re-surface the envelope `error`
field ("errorResp" decoding). -/
def Player.rotateCall (g : Game) (wr : GoResult Unit) (rd : ReadOutcome) :
    GoResult Unit × Game :=
  let g1 := { g with pc := (g.pc + 1) % U32 }
  let r := g1.trivialActionResp "rotate" wr rd
  (match r.1 with
   | GoResult.ok env =>
       match env.error with
       | some e => GoResult.err ("vikebot: " ++ e)
       | none => GoResult.ok ()
   | GoResult.err e => GoResult.err ("vikebot: " ++ e)
   | GoResult.fault => GoResult.fault,
   r.2)

/-- `Player.Move` (player.go lines 70-90): same shape as `Rotate` with
packet type "move". -/
def Player.moveCall (g : Game) (wr : GoResult Unit) (rd : ReadOutcome) :
    GoResult Unit × Game :=
  let g1 := { g with pc := (g.pc + 1) % U32 }
  let r := g1.trivialActionResp "move" wr rd
  (match r.1 with
   | GoResult.ok env =>
       match env.error with
       | some e => GoResult.err ("vikebot: " ++ e)
       | none => GoResult.ok ()
   | GoResult.err e => GoResult.err ("vikebot: " ++ e)
   | GoResult.fault => GoResult.fault,
   r.2)

/-- `Player.Attack` (player.go lines 110-133): round-trip, error field
re-surfaced, then `obj.health` required. -/
def Player.attackCall (g : Game) (wr : GoResult Unit) (rd : ReadOutcome) :
    GoResult Int × Game :=
  let g1 := { g with pc := (g.pc + 1) % U32 }
  let r := g1.trivialActionResp "attack" wr rd
  (match r.1 with
   | GoResult.ok env =>
       match env.error with
       | some e => GoResult.err ("vikebot: " ++ e)
       | none =>
           match env.objHealth with
           | none => GoResult.err "vikebot: invalid attack-response packet"
           | some h => GoResult.ok h
   | GoResult.err e => GoResult.err e
   | GoResult.fault => GoResult.fault,
   r.2)

/-- `Player.Radar` (player.go lines 153-177): round-trip, error field
re-surfaced, then `obj.counter` required. -/
def Player.radarCall (g : Game) (wr : GoResult Unit) (rd : ReadOutcome) :
    GoResult Int × Game :=
  let g1 := { g with pc := (g.pc + 1) % U32 }
  let r := g1.trivialActionResp "radar" wr rd
  (match r.1 with
   | GoResult.ok env =>
       match env.error with
       | some e => GoResult.err ("vikebot: " ++ e)
       | none =>
           match env.objCounter with
           | none => GoResult.err "vikebot: invalid radar-response packet"
           | some c => GoResult.ok c
   | GoResult.err e => GoResult.err e
   | GoResult.fault => GoResult.fault,
   r.2)

/-- `Player.Watch` (player.go lines 197-220): round-trip (failure
wrapped), error field re-surfaced, then `obj.health_matrix` required. -/
def Player.watchCall (g : Game) (wr : GoResult Unit) (rd : ReadOutcome) :
    GoResult (List (List Int)) × Game :=
  let g1 := { g with pc := (g.pc + 1) % U32 }
  let r := g1.trivialActionResp "watch" wr rd
  (match r.1 with
   | GoResult.ok env =>
       match env.error with
       | some e => GoResult.err ("vikebot: " ++ e)
       | none =>
           match env.objMatrix with
           | none => GoResult.err "vikebot: invalid watch-response packet"
           | some m => GoResult.ok m
   | GoResult.err e => GoResult.err ("vikebot: " ++ e)
   | GoResult.fault => GoResult.fault,
   r.2)

/-- `Player.Scout` (player.go lines 240-262): round-trip, error field
re-surfaced, then `obj.counter` required. -/
def Player.scoutCall (g : Game) (wr : GoResult Unit) (rd : ReadOutcome) :
    GoResult Int × Game :=
  let g1 := { g with pc := (g.pc + 1) % U32 }
  let r := g1.trivialActionResp "scout" wr rd
  (match r.1 with
   | GoResult.ok env =>
       match env.error with
       | some e => GoResult.err ("vikebot: " ++ e)
       | none =>
           match env.objCounter with
           | none => GoResult.err "vikebot: invalid scout-response packet"
           | some c => GoResult.ok c
   | GoResult.err e => GoResult.err e
   | GoResult.fault => GoResult.fault,
   r.2)

/-- `Player.Defend` (player.go lines 276-280): increment the counter and
run `trivialAction`, which discards the response buffer — the envelope
`error` field of a type-matching response is never consulted. -/
def Player.defendCall (g : Game) (wr : GoResult Unit) (rd : ReadOutcome) :
    GoResult Unit × Game :=
  let g1 := { g with pc := (g.pc + 1) % U32 }
  let r := g1.trivialActionResp "defend" wr rd
  (match r.1 with
   | GoResult.ok _ => GoResult.ok ()
   | GoResult.err e => GoResult.err e
   | GoResult.fault => GoResult.fault,
   r.2)

/-- `Player.Undefend` (player.go lines 293-297): like `Defend` with packet
type "undefend". -/
def Player.undefendCall (g : Game) (wr : GoResult Unit) (rd : ReadOutcome) :
    GoResult Unit × Game :=
  let g1 := { g with pc := (g.pc + 1) % U32 }
  let r := g1.trivialActionResp "undefend" wr rd
  (match r.1 with
   | GoResult.ok _ => GoResult.ok ()
   | GoResult.err e => GoResult.err e
   | GoResult.fault => GoResult.fault,
   r.2)

/-- `Player.GetHealth` (player.go lines 316-335): round-trip, then
`obj.value` required — the `healthResp` struct has no error field, so a
server `error` on a type-matching response is silently dropped. -/
def Player.getHealthCall (g : Game) (wr : GoResult Unit) (rd : ReadOutcome) :
    GoResult Int × Game :=
  let g1 := { g with pc := (g.pc + 1) % U32 }
  let r := g1.trivialActionResp "health" wr rd
  (match r.1 with
   | GoResult.ok env =>
       match env.objValue with
       | none => GoResult.err "vikebot: invalid health-response packet"
       | some v => GoResult.ok v
   | GoResult.err e => GoResult.err e
   | GoResult.fault => GoResult.fault,
   r.2)

/-- The `agreeconn` exchange of `Join` (game.go line 350 with
`agreeconnPacket` of packet.go, which increments the counter while
building the packet, followed by `trivialAction`). -/
def Game.agreeconnStep (g : Game) (wr : GoResult Unit) (rd : ReadOutcome) :
    GoResult Unit × Game :=
  let g1 := { g with pc := (g.pc + 1) % U32 }
  let r := g1.trivialActionResp "agreeconn" wr rd
  (match r.1 with
   | GoResult.ok _ => GoResult.ok ()
   | GoResult.err e => GoResult.err e
   | GoResult.fault => GoResult.fault,
   r.2)

/-- A sequence of `Rotate` round-trips after the handshake, each with its
own server response; `none` as soon as one call fails. -/
def runRotates : Game → List ReadOutcome → Option Game
  | g, [] => some g
  | g, rd :: rest =>
      match Player.rotateCall g (GoResult.ok ()) rd with
      | (GoResult.ok _, g2) => runRotates g2 rest
      | _ => none

/-- A concrete AEAD satisfying the stdlib contract, used to evaluate the
theorems below on closed inputs: twelve-byte nonces, identity seal. -/
def idAEAD : AEAD where
  nonceSize := 12
  enc := fun _ p => p
  dec := fun _ c => some c
  dec_enc := fun _ _ _ => rfl
  enc_lt := fun _ _ h => h

/-- `loginPacket` (packet.go line 23): Sprintf-interpolation of the ticket
into a fixed JSON skeleton, with no escaping of the argument. -/
def loginPacket (roundticket : String) : String :=
  "\x7b\"type\":\"login\",\"obj\":\x7b\"roundticket\":\"" ++ roundticket ++ "\"\x7d\x7d"

/-- `clienthelloPacket` (packet.go line 27). -/
def clienthelloPacket (cipher : String) : String :=
  "\x7b\"type\":\"clienthello\",\"obj\":\x7b\"cipher\":\"" ++ cipher ++ "\"\x7d\x7d"

/-- `agreeconnPacket` (packet.go line 31); the counter mutation it
performs is modelled in `Game.agreeconnStep`, the argument here is the
already-incremented counter the source interpolates. -/
def agreeconnPacket (pc : Nat) : String :=
  "\x7b\"type\":\"agreeconn\",\"pc\":" ++ toString pc ++ ",\"obj\":\x7b\x7d\x7d"

/-- The `rotate` packet bytes (player.go line 39). -/
def rotatePacket (pc : Nat) (angle : String) : String :=
  "\x7b\"type\":\"rotate\",\"pc\":" ++ toString pc ++ ",\"obj\":\x7b\"angle\":\"" ++ angle
    ++ "\"\x7d\x7d"

/-- The `move` packet bytes (player.go line 73). -/
def movePacket (pc : Nat) (direction : String) : String :=
  "\x7b\"type\":\"move\",\"pc\":" ++ toString pc ++ ",\"obj\":\x7b\"direction\":\"" ++ direction
    ++ "\"\x7d\x7d"

/-- The `attack` packet bytes (player.go line 113). -/
def attackPacket (pc : Nat) : String :=
  "\x7b\"type\":\"attack\",\"pc\":" ++ toString pc ++ ",\"obj\":null\x7d"

/-- The `radar` packet bytes (player.go line 157). -/
def radarPacket (pc : Nat) : String :=
  "\x7b\"type\":\"radar\",\"pc\":" ++ toString pc ++ ",\"obj\":null\x7d"

/-- The `watch` packet bytes (player.go line 201). -/
def watchPacket (pc : Nat) : String :=
  "\x7b\"type\":\"watch\",\"pc\":" ++ toString pc ++ ",\"obj\":null\x7d"

/-- The `scout` packet bytes (player.go line 243). -/
def scoutPacket (pc : Nat) (distance : Int) : String :=
  "\x7b\"type\":\"scout\",\"pc\":" ++ toString pc ++ ",\"obj\":\x7b\"distance\":"
    ++ toString distance ++ "\x7d\x7d"

/-- The `defend` packet bytes (player.go line 279). -/
def defendPacket (pc : Nat) : String :=
  "\x7b\"type\":\"defend\",\"pc\":" ++ toString pc ++ ",\"obj\":null\x7d"

/-- The `undefend` packet bytes (player.go line 296). -/
def undefendPacket (pc : Nat) : String :=
  "\x7b\"type\":\"undefend\",\"pc\":" ++ toString pc ++ ",\"obj\":null\x7d"

/-- The `health` packet bytes (player.go line 320). -/
def healthPacket (pc : Nat) : String :=
  "\x7b\"type\":\"health\",\"pc\":" ++ toString pc ++ ",\"obj\":null\x7d"

/-- Lower-case hexadecimal digit, for JSON control-character escapes. -/
def hexDigit (n : Nat) : Char :=
  Char.ofNat (if n < 10 then 48 + n else 87 + n)

/-- Modelled from the spec: JSON string-character escaping (RFC 8259) —
quote and backslash get a backslash escape, control characters a \u
escape, everything else stands for itself.  This is the escaping a valid
JSON serializer must apply and the source omits. -/
def escChar (c : Char) : List Char :=
  if c.toNat = 34 then [Char.ofNat 92, Char.ofNat 34]
  else if c.toNat = 92 then [Char.ofNat 92, Char.ofNat 92]
  else if c.toNat < 32 then
    [Char.ofNat 92, Char.ofNat 117, hexDigit (c.toNat / 4096 % 16),
     hexDigit (c.toNat / 256 % 16), hexDigit (c.toNat / 16 % 16), hexDigit (c.toNat % 16)]
  else [c]

/-- Modelled from the spec: a JSON string literal with proper escaping. -/
def jsonStr (s : String) : String :=
  "\"" ++ String.mk (s.toList.flatMap escChar) ++ "\""

/-- Modelled from the spec: the canonical JSON serialization of the
envelope `(type, optional pc, obj)` described in §4.5 and §6 of the
specification. -/
def jsonEnvelope (t : String) (pc : Option Nat) (objJson : String) : String :=
  "\x7b\"type\":" ++ jsonStr t
    ++ (match pc with
        | some n => ",\"pc\":" ++ toString n
        | none => "")
    ++ ",\"obj\":" ++ objJson ++ "\x7d"

/-- A character needing no JSON escaping: printable and neither quote nor
backslash. -/
def PlainChar (c : Char) : Prop := 32 ≤ c.toNat ∧ c.toNat ≠ 34 ∧ c.toNat ≠ 92

instance : DecidablePred PlainChar := fun c => by unfold PlainChar; infer_instance

/-- JSON values, enough for the envelopes this client emits. -/
inductive Json where
  | jnull : Json
  | jnum : Int → Json
  | jstr : String → Json
  | jobj : List (String × Json) → Json

/-- JSON string-body parser (after the opening quote): handles plain
characters and the one-character escapes; rejects control characters.
Fuelled recursion. -/
def parseStr : Nat → List Char → Option (List Char × List Char)
  | 0, _ => none
  | _ + 1, [] => none
  | f + 1, c :: rest =>
      if c.toNat = 34 then some ([], rest)
      else if c.toNat = 92 then
        match rest with
        | [] => none
        | e :: rest2 =>
            if e.toNat = 34 ∨ e.toNat = 92 ∨ e.toNat = 47 then
              match parseStr f rest2 with
              | some (cs, r) => some (e :: cs, r)
              | none => none
            else if e.toNat = 110 then
              match parseStr f rest2 with
              | some (cs, r) => some (Char.ofNat 10 :: cs, r)
              | none => none
            else if e.toNat = 116 then
              match parseStr f rest2 with
              | some (cs, r) => some (Char.ofNat 9 :: cs, r)
              | none => none
            else if e.toNat = 114 then
              match parseStr f rest2 with
              | some (cs, r) => some (Char.ofNat 13 :: cs, r)
              | none => none
            else none
      else if c.toNat < 32 then none
      else
        match parseStr f rest with
        | some (cs, r) => some (c :: cs, r)
        | none => none

/-- Decimal digit-run parser for JSON numbers. -/
def parseNum (l : List Char) : Option (Nat × List Char) :=
  let ds := l.takeWhile fun c => decide (48 ≤ c.toNat ∧ c.toNat ≤ 57)
  if ds = [] then none
  else some (ds.foldl (fun a c => a * 10 + (c.toNat - 48)) 0,
             l.dropWhile fun c => decide (48 ≤ c.toNat ∧ c.toNat ≤ 57))

mutual

/-- JSON value parser (no whitespace, which the client never emits):
strings, integers, null, and objects.  Fuelled recursion. -/
def parseValue : Nat → List Char → Option (Json × List Char)
  | 0, _ => none
  | _ + 1, [] => none
  | f + 1, c :: rest =>
      if c.toNat = 34 then
        match parseStr f rest with
        | some (cs, r) => some (Json.jstr (String.mk cs), r)
        | none => none
      else if c.toNat = 110 then
        match rest with
        | u :: l1 :: l2 :: r =>
            if u.toNat = 117 ∧ l1.toNat = 108 ∧ l2.toNat = 108 then some (Json.jnull, r)
            else none
        | _ => none
      else if c.toNat = 123 then parseMembersStart f rest
      else if c.toNat = 45 then
        match parseNum rest with
        | some (n, r) => some (Json.jnum (-(n : Int)), r)
        | none => none
      else if 48 ≤ c.toNat ∧ c.toNat ≤ 57 then
        match parseNum (c :: rest) with
        | some (n, r) => some (Json.jnum (n : Int), r)
        | none => none
      else none

/-- Object body just after the opening brace: empty object or a member
list. -/
def parseMembersStart : Nat → List Char → Option (Json × List Char)
  | 0, _ => none
  | _ + 1, [] => none
  | f + 1, c :: rest =>
      if c.toNat = 125 then some (Json.jobj [], rest)
      else
        match parseMembers f (c :: rest) with
        | some (ms, r) => some (Json.jobj ms, r)
        | none => none

/-- One-or-more object members separated by commas, consuming the closing
brace. -/
def parseMembers : Nat → List Char → Option (List (String × Json) × List Char)
  | 0, _ => none
  | f + 1, l =>
      match parseMember f l with
      | none => none
      | some (m, r) =>
          match r with
          | [] => none
          | c :: r2 =>
              if c.toNat = 44 then
                match parseMembers f r2 with
                | some (ms, r3) => some (m :: ms, r3)
                | none => none
              else if c.toNat = 125 then some ([m], r2)
              else none

/-- One object member: quoted key, colon, value. -/
def parseMember : Nat → List Char → Option ((String × Json) × List Char)
  | 0, _ => none
  | _ + 1, [] => none
  | f + 1, c :: rest =>
      if c.toNat = 34 then
        match parseStr f rest with
        | none => none
        | some (k, r1) =>
            match r1 with
            | [] => none
            | d :: r2 =>
                if d.toNat = 58 then
                  match parseValue f r2 with
                  | some (v, r3) => some ((String.mk k, v), r3)
                  | none => none
                else none
      else none

end

/-- A string is a valid JSON document for value `v` when the parser
consumes it entirely and yields `v`. -/
def parseJson (s : String) : Option Json :=
  match parseValue (4 * s.toList.length + 16) s.toList with
  | some (v, []) => some v
  | _ => none

example : parseJson "\x7b\"a\":1,\"b\":null\x7d"
    = some (Json.jobj [("a", Json.jnum 1), ("b", Json.jnull)]) := by rfl
example : parseJson (rotatePacket 1 "left")
    = some (Json.jobj [("type", Json.jstr "rotate"), ("pc", Json.jnum 1),
        ("obj", Json.jobj [("angle", Json.jstr "left")])]) := by rfl
example : parseJson (rotatePacket 1 "a\"b") = none := by rfl

theorem encode3_lt : ∀ bs : List Nat, (∀ b ∈ bs, b < 256) → ∀ s ∈ encode3 bs, s < 64
  | [], _ => by simp [encode3]
  | [a], h => by
      have ha := h a (by simp)
      simp [encode3]
      omega
  | [a, b], h => by
      have ha := h a (by simp)
      have hb := h b (by simp)
      simp [encode3]
      omega
  | a :: b :: c :: rest, h => by
      have ha := h a (by simp)
      have hb := h b (by simp)
      have hc := h c (by simp)
      have ih := encode3_lt rest (fun x hx => h x (by simp [hx]))
      intro s hs
      simp only [encode3, List.mem_cons] at hs
      rcases hs with h1 | h1 | h1 | h1 | h1
      · omega
      · omega
      · omega
      · omega
      · exact ih s h1

theorem index_alpha : ∀ i < 64, b64Index (b64Alpha i) = some i := by decide

theorem mapIdx_alpha : ∀ sx : List Nat, (∀ s ∈ sx, s < 64) → mapIdx (sx.map b64Alpha) = some sx
  | [], _ => rfl
  | s :: rest, h => by
      have hs := index_alpha s (h s (by simp))
      have ih := mapIdx_alpha rest (fun x hx => h x (by simp [hx]))
      simp [mapIdx, hs, ih]

theorem alpha_ne_nl (i : Nat) : b64Alpha i ≠ 10 ∧ b64Alpha i ≠ 13 := by
  unfold b64Alpha
  split
  · omega
  · split
    · omega
    · split
      · omega
      · split
        · omega
        · omega

theorem filter_alpha (sx : List Nat) :
    ((sx.map b64Alpha).filter fun c => !(c == 10) && !(c == 13)) = sx.map b64Alpha := by
  apply List.filter_eq_self.mpr
  intro a ha
  obtain ⟨i, _, rfl⟩ := List.mem_map.mp ha
  have h1 := (alpha_ne_nl i).1
  have h2 := (alpha_ne_nl i).2
  simp [h1, h2]

theorem decode4_encode3 : ∀ bs : List Nat, (∀ b ∈ bs, b < 256) → decode4 (encode3 bs) = some bs
  | [], _ => rfl
  | [a], h => by
      have ha := h a (by simp)
      simp [encode3, decode4]
      omega
  | [a, b], h => by
      have ha := h a (by simp)
      have hb := h b (by simp)
      simp [encode3, decode4]
      constructor
      · omega
      · omega
  | a :: b :: c :: rest, h => by
      have ha := h a (by simp)
      have hb := h b (by simp)
      have hc := h c (by simp)
      have ih := decode4_encode3 rest (fun x hx => h x (by simp [hx]))
      simp [encode3, decode4, ih]
      refine ⟨?_, ?_, ?_⟩
      · omega
      · omega
      · omega

/-- Base64 round-trip: decoding an encoding recovers any byte sequence. -/
theorem b64_roundtrip (bs : List Nat) (h : ∀ b ∈ bs, b < 256) :
    decode64 (encode64 bs) = some bs := by
  unfold decode64 encode64
  rw [filter_alpha, mapIdx_alpha _ (encode3_lt bs h)]
  exact decode4_encode3 bs h

theorem strEq : ∀ a b : String, a.data = b.data → a = b
  | ⟨_⟩, ⟨_⟩, h => congrArg String.mk h

theorem data_append : ∀ a b : String, (a ++ b).data = a.data ++ b.data
  | ⟨_⟩, ⟨_⟩ => rfl

theorem escChar_plain (c : Char) (h : PlainChar c) : escChar c = [c] := by
  obtain ⟨h1, h2, h3⟩ := h
  unfold escChar
  rw [if_neg h2, if_neg h3, if_neg (by omega)]

theorem flatMap_escChar : ∀ l : List Char, (∀ c ∈ l, PlainChar c) → l.flatMap escChar = l
  | [], _ => rfl
  | c :: rest, h => by
      have hc := escChar_plain c (h c (by simp))
      have ih := flatMap_escChar rest (fun x hx => h x (by simp [hx]))
      simp [List.flatMap_cons, hc, ih]

theorem jsonStr_plain (s : String) (h : ∀ c ∈ s.toList, PlainChar c) :
    jsonStr s = "\"" ++ s ++ "\"" := by
  unfold jsonStr
  rw [flatMap_escChar _ h]
  rfl


theorem tar_match_ok (g : Game) (pt : String) (resp : Envelope) (wr0 : Unit)
    (henc : g.Encrypted = true) (ht : resp.type = pt)
    (hp : resp.pc = some ((g.pc + 1) % U32)) :
    g.trivialActionResp pt (GoResult.ok wr0) (ReadOutcome.msg resp)
      = (GoResult.ok resp, { g with pc := (g.pc + 1) % U32 }) := by
  unfold Game.trivialActionResp
  simp [ht, henc, hp]

theorem tar_pc_or (g : Game) (pt : String) (wr : GoResult Unit) (rd : ReadOutcome) :
    (g.trivialActionResp pt wr rd).2.pc = g.pc ∨
    (g.trivialActionResp pt wr rd).2.pc = (g.pc + 1) % U32 := by
  unfold Game.trivialActionResp
  cases wr <;> try simp
  cases rd <;> try simp
  repeat' split
  all_goals simp

theorem tar_state_eq (g : Game) (pt : String) (wr : GoResult Unit) (rd : ReadOutcome) :
    (g.trivialActionResp pt wr rd).2.Encrypted = g.Encrypted ∧
    (g.trivialActionResp pt wr rd).2.conn = g.conn ∧
    (g.trivialActionResp pt wr rd).2.buf = g.buf ∧
    (g.trivialActionResp pt wr rd).2.gcm = g.gcm := by
  unfold Game.trivialActionResp
  cases wr <;> try simp
  cases rd <;> try simp
  repeat' split
  all_goals simp

theorem tar_ok_pc (g : Game) (pt : String) (wr : GoResult Unit) (rd : ReadOutcome)
    (env : Envelope) (henc : g.Encrypted = true) :
    (g.trivialActionResp pt wr rd).1 = GoResult.ok env →
    (g.trivialActionResp pt wr rd).2.pc = (g.pc + 1) % U32 := by
  unfold Game.trivialActionResp
  cases wr <;> try simp
  cases rd <;> try simp
  repeat' split
  all_goals simp_all

theorem readLine_ends : ∀ stream line rest : List Nat,
    readLine stream = some (line, rest) → ∃ pfx, line = pfx ++ [10]
  | [], _, _, h => by simp [readLine] at h
  | b :: s, line, rest, h => by
      by_cases hb : b = 10
      · subst hb
        simp [readLine] at h
        exact ⟨[], by simp [← h.1]⟩
      · rw [readLine, if_neg hb] at h
        cases hr : readLine s with
        | none => rw [hr] at h; simp at h
        | some p =>
            obtain ⟨l2, r2⟩ := p
            rw [hr] at h
            simp at h
            obtain ⟨pfx, hp⟩ := readLine_ends s l2 r2 hr
            exact ⟨b :: pfx, by simp [← h.1, hp]⟩

theorem dropLast_append_single (l : List Nat) (a : Nat) : (l ++ [a]).dropLast = l := by
  simp

/-- C3: in an encrypted session, a type-matching response without a `pc`
field fails with the "missing pc" protocol error, and one whose `pc`
differs from the expected incremented counter fails with the
"pc mismatch" protocol error; in both cases the local counter holds the
guard's incremented value and is not resynchronized to the server's. -/
theorem c3_pc_guard_errors (g : Game) (pt : String) (resp : Envelope)
    (henc : g.Encrypted = true) (ht : resp.type = pt) :
    (resp.pc = none →
      g.trivialActionResp pt (GoResult.ok ()) (ReadOutcome.msg resp)
        = (GoResult.err "vikebot: invalid server response. missing pc",
           { g with pc := (g.pc + 1) % U32 })) ∧
    (∀ p, resp.pc = some p → p ≠ (g.pc + 1) % U32 →
      g.trivialActionResp pt (GoResult.ok ()) (ReadOutcome.msg resp)
        = (GoResult.err "vikebot: invalid server response. pc mismatch",
           { g with pc := (g.pc + 1) % U32 }) ∧
      (g.trivialActionResp pt (GoResult.ok ()) (ReadOutcome.msg resp)).2.pc ≠ p) := by
  constructor
  · intro hp
    unfold Game.trivialActionResp
    simp [ht, henc, hp]
  · intro p hp hne
    have he : g.trivialActionResp pt (GoResult.ok ()) (ReadOutcome.msg resp)
        = (GoResult.err "vikebot: invalid server response. pc mismatch",
           { g with pc := (g.pc + 1) % U32 }) := by
      unfold Game.trivialActionResp
      simp [ht, henc, hp, hne]
    refine ⟨he, ?_⟩
    rw [he]
    exact Ne.symm hne

/-- C3 witness: a concrete encrypted session and a `rotate` response with
no `pc` field produce the missing-pc error and counter 6. -/
theorem c3_witness :
    (Game.mk (some ()) (some []) none 5 true false).trivialActionResp "rotate"
        (GoResult.ok ())
        (ReadOutcome.msg (Envelope.mk "rotate" none none none none none none))
      = (GoResult.err "vikebot: invalid server response. missing pc",
         Game.mk (some ()) (some []) none 6 true false) :=
  (c3_pc_guard_errors (Game.mk (some ()) (some []) none 5 true false) "rotate"
    (Envelope.mk "rotate" none none none none none none) rfl rfl).1 rfl

theorem callStep_pc (g : Game) (pt : String) (wr : GoResult Unit) (rd : ReadOutcome) :
    ((({ g with pc := (g.pc + 1) % U32 }).trivialActionResp pt wr rd).2.pc = (g.pc + 1) % U32 ∨
     (({ g with pc := (g.pc + 1) % U32 }).trivialActionResp pt wr rd).2.pc
       = ((g.pc + 1) % U32 + 1) % U32) ∧
    (({ g with pc := (g.pc + 1) % U32 }).trivialActionResp pt wr rd).2.pc ≠ g.pc := by
  have h := tar_pc_or { g with pc := (g.pc + 1) % U32 } pt wr rd
  simp only at h
  constructor
  · exact h
  · rcases h with h | h <;> rw [h] <;> simp only [U32] at * <;> omega

/-- C10: for every command wrapper, a failing call leaves the counter at
the value incremented before the send, or additionally incremented by the
response validation — never restored to its pre-call value. -/
theorem c10_no_rollback (g : Game) (wr : GoResult Unit) (rd : ReadOutcome) :
    (∀ e, (Player.rotateCall g wr rd).1 = GoResult.err e →
      ((Player.rotateCall g wr rd).2.pc = (g.pc + 1) % U32 ∨
       (Player.rotateCall g wr rd).2.pc = ((g.pc + 1) % U32 + 1) % U32) ∧
      (Player.rotateCall g wr rd).2.pc ≠ g.pc) ∧
    (∀ e, (Player.moveCall g wr rd).1 = GoResult.err e →
      ((Player.moveCall g wr rd).2.pc = (g.pc + 1) % U32 ∨
       (Player.moveCall g wr rd).2.pc = ((g.pc + 1) % U32 + 1) % U32) ∧
      (Player.moveCall g wr rd).2.pc ≠ g.pc) ∧
    (∀ e, (Player.attackCall g wr rd).1 = GoResult.err e →
      ((Player.attackCall g wr rd).2.pc = (g.pc + 1) % U32 ∨
       (Player.attackCall g wr rd).2.pc = ((g.pc + 1) % U32 + 1) % U32) ∧
      (Player.attackCall g wr rd).2.pc ≠ g.pc) ∧
    (∀ e, (Player.radarCall g wr rd).1 = GoResult.err e →
      ((Player.radarCall g wr rd).2.pc = (g.pc + 1) % U32 ∨
       (Player.radarCall g wr rd).2.pc = ((g.pc + 1) % U32 + 1) % U32) ∧
      (Player.radarCall g wr rd).2.pc ≠ g.pc) ∧
    (∀ e, (Player.watchCall g wr rd).1 = GoResult.err e →
      ((Player.watchCall g wr rd).2.pc = (g.pc + 1) % U32 ∨
       (Player.watchCall g wr rd).2.pc = ((g.pc + 1) % U32 + 1) % U32) ∧
      (Player.watchCall g wr rd).2.pc ≠ g.pc) ∧
    (∀ e, (Player.scoutCall g wr rd).1 = GoResult.err e →
      ((Player.scoutCall g wr rd).2.pc = (g.pc + 1) % U32 ∨
       (Player.scoutCall g wr rd).2.pc = ((g.pc + 1) % U32 + 1) % U32) ∧
      (Player.scoutCall g wr rd).2.pc ≠ g.pc) ∧
    (∀ e, (Player.defendCall g wr rd).1 = GoResult.err e →
      ((Player.defendCall g wr rd).2.pc = (g.pc + 1) % U32 ∨
       (Player.defendCall g wr rd).2.pc = ((g.pc + 1) % U32 + 1) % U32) ∧
      (Player.defendCall g wr rd).2.pc ≠ g.pc) ∧
    (∀ e, (Player.undefendCall g wr rd).1 = GoResult.err e →
      ((Player.undefendCall g wr rd).2.pc = (g.pc + 1) % U32 ∨
       (Player.undefendCall g wr rd).2.pc = ((g.pc + 1) % U32 + 1) % U32) ∧
      (Player.undefendCall g wr rd).2.pc ≠ g.pc) ∧
    (∀ e, (Player.getHealthCall g wr rd).1 = GoResult.err e →
      ((Player.getHealthCall g wr rd).2.pc = (g.pc + 1) % U32 ∨
       (Player.getHealthCall g wr rd).2.pc = ((g.pc + 1) % U32 + 1) % U32) ∧
      (Player.getHealthCall g wr rd).2.pc ≠ g.pc) :=
  ⟨fun _ _ => callStep_pc g "rotate" wr rd,
   fun _ _ => callStep_pc g "move" wr rd,
   fun _ _ => callStep_pc g "attack" wr rd,
   fun _ _ => callStep_pc g "radar" wr rd,
   fun _ _ => callStep_pc g "watch" wr rd,
   fun _ _ => callStep_pc g "scout" wr rd,
   fun _ _ => callStep_pc g "defend" wr rd,
   fun _ _ => callStep_pc g "undefend" wr rd,
   fun _ _ => callStep_pc g "health" wr rd⟩

/-- C10 witness: a rotate call rejected for an unexpected packet type
keeps the counter at 6 or 7, never back at 5. -/
theorem c10_witness :
    ((Player.rotateCall (Game.mk (some ()) (some []) none 5 true false) (GoResult.ok ())
        (ReadOutcome.msg (Envelope.mk "bogus" none none none none none none))).2.pc
        = (5 + 1) % U32 ∨
     (Player.rotateCall (Game.mk (some ()) (some []) none 5 true false) (GoResult.ok ())
        (ReadOutcome.msg (Envelope.mk "bogus" none none none none none none))).2.pc
        = ((5 + 1) % U32 + 1) % U32) ∧
    (Player.rotateCall (Game.mk (some ()) (some []) none 5 true false) (GoResult.ok ())
        (ReadOutcome.msg (Envelope.mk "bogus" none none none none none none))).2.pc ≠ 5 :=
  (c10_no_rollback (Game.mk (some ()) (some []) none 5 true false) (GoResult.ok ())
    (ReadOutcome.msg (Envelope.mk "bogus" none none none none none none))).1
    "vikebot: vikebot: invalid server response. unexpected packet" rfl

/-- C6 counterexample: a type-matching `health` response carrying a
non-null `error` field still succeeds with the health value — `GetHealth`
never consults the error field, so a server error is not re-surfaced. -/
theorem c6_counterexample :
    (Player.getHealthCall (Game.mk (some ()) (some []) none 0 true false) (GoResult.ok ())
        (ReadOutcome.msg (Envelope.mk "health" (some 2) (some "boom") (some 50) none none none))).1
      = GoResult.ok 50 ∧
    (Envelope.mk "health" (some 2) (some "boom") (some 50) none none none).error
      = some "boom" :=
  ⟨rfl, rfl⟩

/-- C6 (amended): on a type-matching, counter-correct encrypted response
carrying a non-null `error`, the rotate, move, attack, radar, watch and
scout wrappers fail with that error; defend and undefend return success,
and get-health returns the health value, ignoring the error field. -/
theorem c6_amended_error_resurfacing (g : Game) (env : Envelope) (e : String)
    (henc : g.Encrypted = true) (herr : env.error = some e)
    (hp : env.pc = some (((g.pc + 1) % U32 + 1) % U32)) :
    (env.type = "rotate" →
      (Player.rotateCall g (GoResult.ok ()) (ReadOutcome.msg env)).1
        = GoResult.err ("vikebot: " ++ e)) ∧
    (env.type = "move" →
      (Player.moveCall g (GoResult.ok ()) (ReadOutcome.msg env)).1
        = GoResult.err ("vikebot: " ++ e)) ∧
    (env.type = "attack" →
      (Player.attackCall g (GoResult.ok ()) (ReadOutcome.msg env)).1
        = GoResult.err ("vikebot: " ++ e)) ∧
    (env.type = "radar" →
      (Player.radarCall g (GoResult.ok ()) (ReadOutcome.msg env)).1
        = GoResult.err ("vikebot: " ++ e)) ∧
    (env.type = "watch" →
      (Player.watchCall g (GoResult.ok ()) (ReadOutcome.msg env)).1
        = GoResult.err ("vikebot: " ++ e)) ∧
    (env.type = "scout" →
      (Player.scoutCall g (GoResult.ok ()) (ReadOutcome.msg env)).1
        = GoResult.err ("vikebot: " ++ e)) ∧
    (env.type = "defend" →
      (Player.defendCall g (GoResult.ok ()) (ReadOutcome.msg env)).1 = GoResult.ok ()) ∧
    (env.type = "undefend" →
      (Player.undefendCall g (GoResult.ok ()) (ReadOutcome.msg env)).1 = GoResult.ok ()) ∧
    (env.type = "health" → ∀ v, env.objValue = some v →
      (Player.getHealthCall g (GoResult.ok ()) (ReadOutcome.msg env)).1 = GoResult.ok v) := by
  refine ⟨?_, ?_, ?_, ?_, ?_, ?_, ?_, ?_, ?_⟩
  · intro ht
    have hmk := tar_match_ok { g with pc := (g.pc + 1) % U32 } "rotate" env () henc ht hp
    simp [Player.rotateCall, hmk, herr]
  · intro ht
    have hmk := tar_match_ok { g with pc := (g.pc + 1) % U32 } "move" env () henc ht hp
    simp [Player.moveCall, hmk, herr]
  · intro ht
    have hmk := tar_match_ok { g with pc := (g.pc + 1) % U32 } "attack" env () henc ht hp
    simp [Player.attackCall, hmk, herr]
  · intro ht
    have hmk := tar_match_ok { g with pc := (g.pc + 1) % U32 } "radar" env () henc ht hp
    simp [Player.radarCall, hmk, herr]
  · intro ht
    have hmk := tar_match_ok { g with pc := (g.pc + 1) % U32 } "watch" env () henc ht hp
    simp [Player.watchCall, hmk, herr]
  · intro ht
    have hmk := tar_match_ok { g with pc := (g.pc + 1) % U32 } "scout" env () henc ht hp
    simp [Player.scoutCall, hmk, herr]
  · intro ht
    have hmk := tar_match_ok { g with pc := (g.pc + 1) % U32 } "defend" env () henc ht hp
    simp [Player.defendCall, hmk]
  · intro ht
    have hmk := tar_match_ok { g with pc := (g.pc + 1) % U32 } "undefend" env () henc ht hp
    simp [Player.undefendCall, hmk]
  · intro ht v hv
    have hmk := tar_match_ok { g with pc := (g.pc + 1) % U32 } "health" env () henc ht hp
    simp [Player.getHealthCall, hmk, hv]

/-- C6 witness: a concrete rotate response with an error field fails with
that error. -/
theorem c6_witness :
    (Player.rotateCall (Game.mk (some ()) (some []) none 0 true false) (GoResult.ok ())
        (ReadOutcome.msg (Envelope.mk "rotate" (some 2) (some "oops") none none none none))).1
      = GoResult.err "vikebot: oops" :=
  (c6_amended_error_resurfacing (Game.mk (some ()) (some []) none 0 true false)
    (Envelope.mk "rotate" (some 2) (some "oops") none none none none) "oops"
    rfl rfl rfl).1 rfl

/-- C7 counterexample: in the unencrypted state the frame read returns the
line with its trailing newline — the delimiter is not stripped. -/
theorem c7_counterexample :
    ((Game.mk (some ()) (some [120, 10]) none 0 false false).readRaw).1
      = GoResult.ok [120, 10] ∧
    ([120, 10] : List Nat) ≠ [120] :=
  ⟨rfl, by decide⟩

/-- C7 (amended): the frame read consumes bytes up to and including the
newline; in the encrypted state the delimiter is stripped before
base64/AEAD decoding, while in the unencrypted state the returned payload
retains the trailing newline. -/
theorem c7_amended_delimiter (g : Game) (stream line rest : List Nat)
    (hb : g.buf = some stream) (hl : readLine stream = some (line, rest)) :
    (∃ pfx, line = pfx ++ [10]) ∧
    (g.Encrypted = false → (g.readRaw).1 = GoResult.ok line) ∧
    (g.Encrypted = true → ∀ pfx, line = pfx ++ [10] →
      (∀ plain, g.decrypt64 pfx = GoResult.ok plain → (g.readRaw).1 = GoResult.ok plain) ∧
      (∀ e, g.decrypt64 pfx = GoResult.err e →
        (g.readRaw).1 = GoResult.err ("vikebot: unsecure connection - " ++ e))) := by
  refine ⟨readLine_ends stream line rest hl, ?_, ?_⟩
  · intro he
    simp [Game.readRaw, hb, hl, he]
  · intro he pfx hpfx
    have hdl : line.dropLast = pfx := by
      rw [hpfx]
      exact dropLast_append_single pfx 10
    constructor
    · intro plain hd
      simp [Game.readRaw, hb, hl, he, hdl, hd]
    · intro e hd
      simp [Game.readRaw, hb, hl, he, hdl, hd]

/-- C7 witness: an unencrypted read of the stream "x\n" followed by more
bytes yields the line including the delimiter. -/
theorem c7_witness :
    ((Game.mk (some ()) (some [120, 10, 7]) none 0 false false).readRaw).1
      = GoResult.ok [120, 10] :=
  (c7_amended_delimiter (Game.mk (some ()) (some [120, 10, 7]) none 0 false false)
    [120, 10, 7] [120, 10] [7] rfl rfl).2.1 rfl

/-- C4 counterexample: a second `Close` dereferences the nil connection
and faults — it does not fail fast with an error. -/
theorem c4_counterexample :
    (((Game.mk (some ()) (some []) (some idAEAD) 3 true true).close).1.close).2
      = GoResult.fault ∧
    ¬ ∃ e, (((Game.mk (some ()) (some []) (some idAEAD) 3 true true).close).1.close).2
      = GoResult.err e :=
  ⟨rfl, fun h => by
    obtain ⟨e, he⟩ := h
    exact GoResult.noConfusion he⟩

/-- C4 (amended): `Close` on an open session releases the transport and
clears the reader, cipher, encrypted flag and player state, but the
teardown is not idempotent-safe: a second `Close`, and any read, write or
encryption on the closed session, dereferences nil and faults instead of
failing with an error. -/
theorem c4_amended_close_teardown (g : Game) (hc : g.conn = some ()) :
    (g.close).2 = GoResult.ok () ∧
    (g.close).1.conn = none ∧ (g.close).1.buf = none ∧ (g.close).1.gcm = none ∧
    (g.close).1.Encrypted = false ∧ (g.close).1.player = false ∧
    ((g.close).1.close).2 = GoResult.fault ∧
    ((g.close).1.readRaw).1 = GoResult.fault ∧
    (∀ nonce buf, (g.close).1.write nonce buf = GoResult.fault) ∧
    (∀ nonce plain, (g.close).1.encrypt nonce plain = GoResult.fault) := by
  refine ⟨?_, ?_, ?_, ?_, ?_, ?_, ?_, ?_, ?_, ?_⟩
  · simp [Game.close, hc]
  · simp [Game.close, hc]
  · simp [Game.close, hc]
  · simp [Game.close, hc]
  · simp [Game.close, hc]
  · simp [Game.close, hc]
  · simp [Game.close, hc]
  · simp [Game.close, Game.readRaw, hc]
  · intro nonce buf
    simp [Game.close, Game.write, hc]
  · intro nonce plain
    simp [Game.close, Game.encrypt, hc]

/-- C4 witness: closing a concrete open session returns success. -/
theorem c4_witness :
    ((Game.mk (some ()) (some [1]) (some idAEAD) 9 true true).close).2 = GoResult.ok () :=
  (c4_amended_close_teardown (Game.mk (some ()) (some [1]) (some idAEAD) 9 true true) rfl).1

/-- C8: the AEAD round-trip law — decrypting an encryption of any
plaintext under any correctly-sized nonce yields the plaintext back, both
directly and through the base64 layer. -/
theorem c8_roundtrip (g : Game) (a : AEAD) (nonce plain : List Nat)
    (hg : g.gcm = some a) (hn : nonce.length = a.nonceSize)
    (hnb : ∀ b ∈ nonce, b < 256) (hpb : ∀ b ∈ plain, b < 256) :
    (∀ c, g.encrypt nonce plain = GoResult.ok c → g.decrypt c = GoResult.ok plain) ∧
    (∀ c64, g.encrypt64 nonce plain = GoResult.ok c64 →
      g.decrypt64 c64 = GoResult.ok plain) := by
  have hdec : g.decrypt (nonce ++ a.enc nonce plain) = GoResult.ok plain := by
    unfold Game.decrypt
    rw [hg]
    dsimp only
    have hlen : ¬((nonce ++ a.enc nonce plain).length < a.nonceSize) := by
      simp only [List.length_append]
      omega
    rw [if_neg hlen, ← hn, List.take_left, List.drop_left, a.dec_enc nonce plain hn]
  constructor
  · intro c hc
    unfold Game.encrypt at hc
    rw [hg] at hc
    cases hc
    exact hdec
  · intro c64 hc
    unfold Game.encrypt64 Game.encrypt at hc
    rw [hg] at hc
    cases hc
    unfold Game.decrypt64
    have hbytes : ∀ b ∈ nonce ++ a.enc nonce plain, b < 256 := by
      intro b hb
      rcases List.mem_append.mp hb with h | h
      · exact hnb b h
      · exact a.enc_lt nonce plain hpb b h
    rw [b64_roundtrip _ hbytes]
    exact hdec

/-- C8 witness: a concrete base64 round-trip through encrypt64/decrypt64
recovers the plaintext. -/
theorem c8_witness :
    (Game.mk (some ()) (some []) (some idAEAD) 0 true false).decrypt64
        (encode64 (List.replicate 12 65 ++ [1, 2, 3])) = GoResult.ok [1, 2, 3] :=
  (c8_roundtrip (Game.mk (some ()) (some []) (some idAEAD) 0 true false) idAEAD
      (List.replicate 12 65) [1, 2, 3] rfl (by decide) (by decide) (by decide)).2
    (encode64 (List.replicate 12 65 ++ [1, 2, 3])) rfl

/-- C2: the serverhello type check can be bypassed — an envelope whose
type is not "serverhello" but which carries no error field and a cipher
that opens to the expected challenge echo is accepted, and `Join` sets
`Encrypted` and proceeds, because the type-mismatch branch only returns
when an error field is present. -/
theorem c2_serverhello_type_bypass :
    serverhelloCheck (Game.mk (some ()) (some []) (some idAEAD) 0 false false)
        (ShMsg.mk "bogus" none
          (some (encode64 (List.replicate 12 65 ++ strBytes "serverhello:42"))))
        "42"
      = GoResult.ok (Game.mk (some ()) (some []) (some idAEAD) 0 true false) ∧
    ("bogus" : String) ≠ "serverhello" :=
  ⟨rfl, by decide⟩

/-- C5: an encrypted frame whose content base64-decodes to fewer bytes
than the cipher's nonce size makes the read path fault (out-of-range
slice in `decrypt`) instead of returning a decode error: shown for the
empty content and for a one-character base64 payload. -/
theorem c5_short_cipher_fault :
    ((Game.mk (some ()) (some [10]) (some idAEAD) 0 true false).readRaw).1
      = GoResult.fault ∧
    (Game.mk (some ()) (some [10]) (some idAEAD) 0 true false).decrypt64 []
      = GoResult.fault ∧
    (Game.mk (some ()) (some [10]) (some idAEAD) 0 true false).decrypt [65]
      = GoResult.fault :=
  ⟨rfl, rfl, rfl⟩

theorem agreeconn_ok_state (g g1 : Game) (wr : GoResult Unit) (rd : ReadOutcome)
    (henc : g.Encrypted = true)
    (h : g.agreeconnStep wr rd = (GoResult.ok (), g1)) :
    g1.pc = (g.pc + 2) % U32 ∧ g1.Encrypted = true := by
  have hfst := congrArg Prod.fst h
  have hsnd := congrArg Prod.snd h
  simp only [Game.agreeconnStep] at hfst hsnd
  cases hr : (({ g with pc := (g.pc + 1) % U32 }).trivialActionResp "agreeconn" wr rd).1 with
  | ok env =>
      have hpc := tar_ok_pc { g with pc := (g.pc + 1) % U32 } "agreeconn" wr rd env henc hr
      have hst := (tar_state_eq { g with pc := (g.pc + 1) % U32 } "agreeconn" wr rd).1
      rw [← hsnd]
      simp only at hpc hst
      rw [hpc, hst]
      refine ⟨?_, henc⟩
      rw [Nat.mod_add_mod]
  | err e =>
      rw [hr] at hfst
      simp at hfst
  | fault =>
      rw [hr] at hfst
      simp at hfst

theorem rotate_ok_state (g g1 : Game) (wr : GoResult Unit) (rd : ReadOutcome)
    (henc : g.Encrypted = true)
    (h : Player.rotateCall g wr rd = (GoResult.ok (), g1)) :
    g1.pc = (g.pc + 2) % U32 ∧ g1.Encrypted = true := by
  have hfst := congrArg Prod.fst h
  have hsnd := congrArg Prod.snd h
  simp only [Player.rotateCall] at hfst hsnd
  cases hr : (({ g with pc := (g.pc + 1) % U32 }).trivialActionResp "rotate" wr rd).1 with
  | ok env =>
      have hpc := tar_ok_pc { g with pc := (g.pc + 1) % U32 } "rotate" wr rd env henc hr
      have hst := (tar_state_eq { g with pc := (g.pc + 1) % U32 } "rotate" wr rd).1
      rw [← hsnd]
      simp only at hpc hst
      rw [hpc, hst]
      refine ⟨?_, henc⟩
      rw [Nat.mod_add_mod]
  | err e =>
      rw [hr] at hfst
      simp at hfst
  | fault =>
      rw [hr] at hfst
      simp at hfst

theorem runRotates_pc : ∀ (rds : List ReadOutcome) (g g2 : Game),
    g.Encrypted = true → g.pc < U32 → runRotates g rds = some g2 →
    g2.pc = (g.pc + 2 * rds.length) % U32 ∧ g2.Encrypted = true
  | [], g, g2, henc, hpc, h => by
      simp [runRotates] at h
      subst h
      constructor
      · simp
        exact (Nat.mod_eq_of_lt hpc).symm
      · exact henc
  | rd :: rest, g, g2, henc, hpc, h => by
      rw [runRotates] at h
      cases hc : Player.rotateCall g (GoResult.ok ()) rd with
      | mk res gnext =>
          rw [hc] at h
          cases res with
          | ok u =>
              have hstep := rotate_ok_state g gnext (GoResult.ok ()) rd henc hc
              have hlt : gnext.pc < U32 := by
                rw [hstep.1]
                exact Nat.mod_lt _ (by simp [U32])
              have ih := runRotates_pc rest gnext g2 hstep.2 hlt h
              refine ⟨?_, ih.2⟩
              rw [ih.1, hstep.1, List.length_cons]
              rw [Nat.mod_add_mod]
              ring_nf
          | err e => simp at h
          | fault => simp at h

/-- C1 counterexample: a successful `agreeconn` exchange against a
cooperating server starting from counter 5 leaves the counter at 7, not
at 5 + 1 — the counter advances twice per round-trip (once when the
packet is built, once during response validation). -/
theorem c1_counterexample :
    (Game.agreeconnStep (Game.mk (some ()) (some []) none 5 true false) (GoResult.ok ())
        (ReadOutcome.msg (Envelope.mk "agreeconn" (some 7) none none none none none))).1
      = GoResult.ok () ∧
    (Game.agreeconnStep (Game.mk (some ()) (some []) none 5 true false) (GoResult.ok ())
        (ReadOutcome.msg (Envelope.mk "agreeconn" (some 7) none none none none none))).2.pc
      = 7 ∧
    (7 : Nat) ≠ 5 + 1 :=
  ⟨rfl, rfl, by decide⟩

/-- C1 (amended): after a successful `agreeconn` exchange the counter is
`initialpc + 2 (mod 2^32)`, and after `n` further successful encrypted
command round-trips it is `initialpc + 2 + 2 n (mod 2^32)` — each
round-trip advances the local counter by exactly 2 (one increment before
the send, one during response validation), with the response required to
carry the post-validation value. -/
theorem c1_amended_counter_law (g g1 : Game) (wr : GoResult Unit) (rd0 : ReadOutcome)
    (rds : List ReadOutcome) (henc : g.Encrypted = true)
    (h : g.agreeconnStep wr rd0 = (GoResult.ok (), g1)) :
    g1.pc = (g.pc + 2) % U32 ∧
    ∀ g2, runRotates g1 rds = some g2 →
      g2.pc = (g.pc + 2 + 2 * rds.length) % U32 := by
  have hs := agreeconn_ok_state g g1 wr rd0 henc h
  refine ⟨hs.1, ?_⟩
  intro g2 hrun
  have hlt : g1.pc < U32 := by
    rw [hs.1]
    exact Nat.mod_lt _ (by simp [U32])
  have ih := runRotates_pc rds g1 g2 hs.2 hlt hrun
  rw [ih.1, hs.1, Nat.mod_add_mod]

/-- C1 witness: from initial counter 5 a successful handshake tail and
two successful rotate round-trips leave the counter at 11 = 5 + 2 + 2·2. -/
theorem c1_witness :
    (Game.mk (some ()) (some []) none 7 true false).pc = (5 + 2) % U32 ∧
    ∀ g2, runRotates (Game.mk (some ()) (some []) none 7 true false)
        [ReadOutcome.msg (Envelope.mk "rotate" (some 9) none none none none none),
         ReadOutcome.msg (Envelope.mk "rotate" (some 11) none none none none none)]
      = some g2 →
      g2.pc = (5 + 2 + 2 * 2) % U32 :=
  c1_amended_counter_law (Game.mk (some ()) (some []) none 5 true false)
    (Game.mk (some ()) (some []) none 7 true false) (GoResult.ok ())
    (ReadOutcome.msg (Envelope.mk "agreeconn" (some 7) none none none none none))
    [ReadOutcome.msg (Envelope.mk "rotate" (some 9) none none none none none),
     ReadOutcome.msg (Envelope.mk "rotate" (some 11) none none none none none)]
    rfl rfl

/-- C9 counterexample: interpolating the angle argument `a"b` into the
rotate packet yields bytes that are not valid JSON at all — the argument
is spliced without escaping. -/
theorem c9_counterexample : parseJson (rotatePacket 1 "a\"b") = none := by rfl

/-- C9 (amended): for every command packet, when the interpolated string
arguments contain no characters requiring JSON escaping the emitted bytes
are exactly the canonical JSON serialization of the envelope
`(type, pc, obj)` with those field values; arguments are spliced verbatim,
so a quote, backslash or control character breaks the serialization. -/
theorem c9_amended_serialization (pc : Nat) (angle direction ticket cipher : String)
    (distance : Int)
    (hAngle : ∀ c ∈ angle.toList, PlainChar c)
    (hDirection : ∀ c ∈ direction.toList, PlainChar c)
    (hTicket : ∀ c ∈ ticket.toList, PlainChar c)
    (hCipher : ∀ c ∈ cipher.toList, PlainChar c) :
    rotatePacket pc angle
      = jsonEnvelope "rotate" (some pc) ("\x7b\"angle\":" ++ jsonStr angle ++ "\x7d") ∧
    movePacket pc direction
      = jsonEnvelope "move" (some pc) ("\x7b\"direction\":" ++ jsonStr direction ++ "\x7d") ∧
    scoutPacket pc distance
      = jsonEnvelope "scout" (some pc) ("\x7b\"distance\":" ++ toString distance ++ "\x7d") ∧
    attackPacket pc = jsonEnvelope "attack" (some pc) "null" ∧
    radarPacket pc = jsonEnvelope "radar" (some pc) "null" ∧
    watchPacket pc = jsonEnvelope "watch" (some pc) "null" ∧
    defendPacket pc = jsonEnvelope "defend" (some pc) "null" ∧
    undefendPacket pc = jsonEnvelope "undefend" (some pc) "null" ∧
    healthPacket pc = jsonEnvelope "health" (some pc) "null" ∧
    agreeconnPacket pc = jsonEnvelope "agreeconn" (some pc) "\x7b\x7d" ∧
    loginPacket ticket
      = jsonEnvelope "login" none ("\x7b\"roundticket\":" ++ jsonStr ticket ++ "\x7d") ∧
    clienthelloPacket cipher
      = jsonEnvelope "clienthello" none ("\x7b\"cipher\":" ++ jsonStr cipher ++ "\x7d") := by
  refine ⟨?_, ?_, ?_, ?_, ?_, ?_, ?_, ?_, ?_, ?_, ?_, ?_⟩
  · apply strEq
    rw [jsonStr_plain angle hAngle]
    simp only [rotatePacket, jsonEnvelope, data_append, List.append_assoc]
    rfl
  · apply strEq
    rw [jsonStr_plain direction hDirection]
    simp only [movePacket, jsonEnvelope, data_append, List.append_assoc]
    rfl
  · apply strEq
    simp only [scoutPacket, jsonEnvelope, data_append, List.append_assoc]
    rfl
  · apply strEq
    simp only [attackPacket, jsonEnvelope, data_append, List.append_assoc]
    rfl
  · apply strEq
    simp only [radarPacket, jsonEnvelope, data_append, List.append_assoc]
    rfl
  · apply strEq
    simp only [watchPacket, jsonEnvelope, data_append, List.append_assoc]
    rfl
  · apply strEq
    simp only [defendPacket, jsonEnvelope, data_append, List.append_assoc]
    rfl
  · apply strEq
    simp only [undefendPacket, jsonEnvelope, data_append, List.append_assoc]
    rfl
  · apply strEq
    simp only [healthPacket, jsonEnvelope, data_append, List.append_assoc]
    rfl
  · apply strEq
    simp only [agreeconnPacket, jsonEnvelope, data_append, List.append_assoc]
    rfl
  · apply strEq
    rw [jsonStr_plain ticket hTicket]
    simp only [loginPacket, jsonEnvelope, data_append, List.append_assoc]
    rfl
  · apply strEq
    rw [jsonStr_plain cipher hCipher]
    simp only [clienthelloPacket, jsonEnvelope, data_append, List.append_assoc]
    rfl

/-- C9 witness: the rotate packet for counter 7 and angle "left" is the
canonical envelope serialization. -/
theorem c9_witness :
    rotatePacket 7 "left"
      = jsonEnvelope "rotate" (some 7) ("\x7b\"angle\":" ++ jsonStr "left" ++ "\x7d") :=
  (c9_amended_serialization 7 "left" "north" "T" "QQ" (-3)
    (by decide) (by decide) (by decide) (by decide)).1
